import Mathlib

/-!
Shallow embedding of the git-facing core of the AI-GitHub-Assistant repository
(`ui/git_utils.py`, `ui/main_window.py` Worker, `backend/ai_features.py`),
together with proofs about the embedded operations.

External effects (the `subprocess.run` call, the local-AI request, `json.loads`)
are modelled as oracle values/functions supplied to each operation: a single
invocation either completes with a process result (return code, stdout, stderr)
or raises a Python exception.  Python exceptions relevant to the module are
modelled by `PyExc`; the class hierarchy fact we need is that
`GitConflictError` is a subclass of `RuntimeError`, while
`subprocess.TimeoutExpired` and `NameError`/`UnboundLocalError` are not.
-/

namespace GitAssistant

/-- Python exceptions that the embedded code can raise or catch. -/
inductive PyExc where
  /-- `GitConflictError(msg)` — declared in `git_utils.py` as a subclass of
  `RuntimeError`. -/
  | gitConflict (msg : String)
  /-- A plain `RuntimeError(msg)`. -/
  | runtimeError (msg : String)
  /-- `subprocess.TimeoutExpired` (not a `RuntimeError`). -/
  | timeoutExpired
  /-- `NameError` / `UnboundLocalError` (not a `RuntimeError`). -/
  | nameError (msg : String)
  /-- Any other exception class (not a `RuntimeError`). -/
  | other (msg : String)
deriving DecidableEq, Repr

/-- Python `isinstance(e, RuntimeError)` for the modelled exception classes:
`GitConflictError` subclasses `RuntimeError`; the rest do not. -/
def PyExc.isRuntimeError : PyExc → Bool
  | .gitConflict _ => true
  | .runtimeError _ => true
  | .timeoutExpired => false
  | .nameError _ => false
  | .other _ => false

/-- Result of a completed `subprocess.run` call (`proc` in the source). -/
structure ProcResult where
  returncode : Int
  stdout : String
  stderr : String
deriving DecidableEq, Repr

/-- Outcome of one `subprocess.run` invocation: either the process completed
(any exit code), or the call itself raised (timeout, missing binary, ...). -/
inductive SubpOutcome where
  | completed (p : ProcResult)
  | raised (e : PyExc)
deriving DecidableEq, Repr

/-- Python's substring test `sub in l` on lists of characters:
true iff `sub` occurs contiguously inside `l`. -/
def containsSub : List Char → List Char → Bool
  | [], sub => sub.isEmpty
  | a :: as, sub => sub.isPrefixOf (a :: as) || containsSub as sub

/-- Python's substring test `pat in s` on strings. -/
def strContainsSub (s pat : String) : Bool :=
  containsSub s.data pat.data

/-- Python `s.lower()`; agrees with CPython on the ASCII markers used here. -/
def pyLower (s : String) : String :=
  (s.data.map Char.toLower).asString

/-- The ASCII whitespace characters stripped by Python `str.strip()`. -/
def pyIsSpace (c : Char) : Bool :=
  c = ' ' || c = '\t' || c = '\n' || c = '\r' || c = '\x0b' || c = '\x0c'

/-- Python `s.strip()` with no argument: remove leading and trailing
whitespace. -/
def pyStrip (s : String) : String :=
  (((s.data.dropWhile pyIsSpace).reverse.dropWhile pyIsSpace).reverse).asString

/-- Python `s.startswith(pat)`. -/
def pyStartsWith (s pat : String) : Bool :=
  pat.data.isPrefixOf s.data

/-- The conflict test of `run_git_command`:
`"merge failed" in proc.stderr.lower() and "fix conflicts" in proc.stderr.lower()`. -/
def isConflictStderr (stderr : String) : Bool :=
  strContainsSub (pyLower stderr) "merge failed" &&
    strContainsSub (pyLower stderr) "fix conflicts"

/-- Embedding of `run_git_command(args, cwd, check)` from `ui/git_utils.py`.
`gitBin` is the current value of the module global `GIT_BIN`; `outcome` is the
oracle for the single `subprocess.run` call (which the source gives a 20-second
timeout; a timeout surfaces as `SubpOutcome.raised .timeoutExpired`).
Returns `proc.stdout` on success and the raised exception otherwise. -/
def run_git_command (gitBin : String) (args : List String)
    (outcome : SubpOutcome) (check : Bool) : Except PyExc String :=
  match outcome with
  | .raised e => .error e
  | .completed p =>
    if check && decide (p.returncode ≠ 0) then
      if isConflictStderr p.stderr then
        .error (.gitConflict ("Merge conflict detected:\n" ++ p.stderr))
      else
        .error (.runtimeError
          ("git command failed: " ++ String.intercalate " " (gitBin :: args)
            ++ "\n" ++ p.stderr))
    else
      .ok p.stdout

/-- Deterministic oracle for the external world seen by one façade call:
the configured git executable (`GIT_BIN`) plus the outcome of each distinct
`subprocess.run` invocation the façade operations can make against the given
working directory.  Repeated identical invocations (e.g. the `rev-parse`
probe run both by `staged_diff_size` and by the `diff_staged` it calls)
receive the same outcome. -/
structure GitEnv where
  gitBin : String
  /-- outcome of `git rev-parse --is-inside-work-tree` -/
  revParse : SubpOutcome
  /-- outcome of `git rev-parse --abbrev-ref HEAD` -/
  revParseBranch : SubpOutcome
  /-- outcome of `git diff --cached` -/
  diffCached : SubpOutcome
  /-- outcome of `git diff --name-only --cached` -/
  diffNameOnlyCached : SubpOutcome
  /-- outcome of `git ls-files --modified` -/
  lsFilesModified : SubpOutcome
  /-- outcome of `git diff --name-only --diff-filter=U` -/
  diffFilterU : SubpOutcome
  /-- outcome of `git branch --list` -/
  branchList : SubpOutcome
  /-- outcome of `git log --pretty=format:%H|%an|%ar|%s -n<limit>` -/
  logHistory : SubpOutcome
  /-- outcome of `git log --pretty=format:%H|%an|%ar|%s HEAD..@{u}` -/
  logUpstream : SubpOutcome
  /-- outcome of `git commit -m <message>` -/
  commitRun : SubpOutcome
deriving DecidableEq, Repr

/-- Embedding of `is_git_repo(cwd)`: runs the work-tree probe and catches
every exception (`except Exception: return False`). -/
def is_git_repo (env : GitEnv) : Bool :=
  match run_git_command env.gitBin ["rev-parse", "--is-inside-work-tree"]
      env.revParse true with
  | .ok out => pyStrip out == "true"
  | .error _ => false

/-- Embedding of `current_branch(cwd)`: returns the trimmed probe output,
`None` on any exception. -/
def current_branch (env : GitEnv) : Option String :=
  match run_git_command env.gitBin ["rev-parse", "--abbrev-ref", "HEAD"]
      env.revParseBranch true with
  | .ok out => some (pyStrip out)
  | .error _ => none

/-- Python `str.splitlines` on a character list, for the line boundaries git
output can contain (`\n`, `\r`, `\r\n`); a trailing boundary does not yield a
trailing empty line.  `acc` holds the current line reversed. -/
def pySplitlinesAux (acc : List Char) : List Char → List (List Char)
  | [] => if acc.isEmpty then [] else [acc.reverse]
  | '\r' :: '\n' :: rest => acc.reverse :: pySplitlinesAux [] rest
  | '\r' :: rest => acc.reverse :: pySplitlinesAux [] rest
  | '\n' :: rest => acc.reverse :: pySplitlinesAux [] rest
  | c :: rest => pySplitlinesAux (c :: acc) rest

/-- Python `s.splitlines()`. -/
def pySplitlines (s : String) : List String :=
  (pySplitlinesAux [] s.data).map List.asString

/-- Python truthiness of `line.strip()`: true iff the line has a
non-whitespace character. -/
def lineIsNonBlank (line : String) : Bool := !(pyStrip line).data.isEmpty

/-- The list comprehension shared by `staged_files`, `unstaged_files` and
`conflicted_files`: `[line for line in out.splitlines() if line.strip()]` —
the surviving lines are kept verbatim, not trimmed. -/
def nonBlankLines (out : String) : List String :=
  (pySplitlines out).filter lineIsNonBlank

/-- Embedding of `staged_files(cwd)`. -/
def staged_files (env : GitEnv) : Except PyExc (List String) :=
  if is_git_repo env then
    match run_git_command env.gitBin ["diff", "--name-only", "--cached"]
        env.diffNameOnlyCached true with
    | .ok out => .ok (nonBlankLines out)
    | .error e => .error e
  else .ok []

/-- Embedding of `unstaged_files(cwd)`. -/
def unstaged_files (env : GitEnv) : Except PyExc (List String) :=
  if is_git_repo env then
    match run_git_command env.gitBin ["ls-files", "--modified"]
        env.lsFilesModified true with
    | .ok out => .ok (nonBlankLines out)
    | .error e => .error e
  else .ok []

/-- Embedding of `conflicted_files(cwd)` (note `check=False`). -/
def conflicted_files (env : GitEnv) : Except PyExc (List String) :=
  if is_git_repo env then
    match run_git_command env.gitBin
        ["diff", "--name-only", "--diff-filter=U"] env.diffFilterU false with
    | .ok out => .ok (nonBlankLines out)
    | .error e => .error e
  else .ok []

/-- One iteration of the `list_branches` loop body: strip the line, drop a
leading `"* "` marker, keep the rest if non-empty. -/
def branchOfLine (line : String) : Option String :=
  let t := pyStrip line
  if pyStartsWith t "* " then some (t.data.drop 2).asString
  else if t.data.isEmpty then none
  else some t

/-- Embedding of `list_branches(cwd)`. -/
def list_branches (env : GitEnv) : Except PyExc (List String) :=
  if is_git_repo env then
    match run_git_command env.gitBin ["branch", "--list"]
        env.branchList true with
    | .ok out => .ok ((pySplitlines out).filterMap branchOfLine)
    | .error e => .error e
  else .ok []

/-- Embedding of `diff_staged(cwd)`: empty string when not a work tree,
otherwise the raw `git diff --cached` output (exceptions propagate). -/
def diff_staged (env : GitEnv) : Except PyExc String :=
  if is_git_repo env then
    run_git_command env.gitBin ["diff", "--cached"] env.diffCached true
  else .ok ""

/-- Embedding of `staged_diff_size(cwd)`:
`len(d.encode("utf-8"))` is the UTF-8 byte length of the diff text. -/
def staged_diff_size (env : GitEnv) : Except PyExc Nat :=
  if is_git_repo env then
    match diff_staged env with
    | .ok d => .ok d.utf8ByteSize
    | .error e => .error e
  else .ok 0

/-- Embedding of `commit(message, cwd)`. -/
def commit (message : String) (env : GitEnv) : Except PyExc String :=
  run_git_command env.gitBin ["commit", "-m", message] env.commitRun true

/-- The guard message of `safe_commit`:
`f"Staged diff too large ({size} bytes), refusing to commit"`. -/
def guardMsg (size : Nat) : String :=
  "Staged diff too large (" ++ toString size ++ " bytes), refusing to commit"

/-- Embedding of `safe_commit(message, cwd, max_diff_bytes)` (the source gives
`max_diff_bytes` the default `2_000_000`): raise a `RuntimeError` carrying the
measured size when the staged diff exceeds the limit, otherwise delegate to
`commit`. -/
def safe_commit (message : String) (env : GitEnv) (max_diff_bytes : Nat) :
    Except PyExc String :=
  match staged_diff_size env with
  | .error e => .error e
  | .ok size =>
    if size > max_diff_bytes then .error (.runtimeError (guardMsg size))
    else commit message env

/-- The record built for each well-formed history line. -/
structure CommitRecord where
  hash : String
  author : String
  date : String
  subject : String
deriving DecidableEq, Repr

/-- Python `line.split("|", maxsplit)` on character lists: `fuel` is the
number of splits still allowed, `acc` the current field reversed. -/
def pySplitMaxAux (acc : List Char) (fuel : Nat) :
    List Char → List (List Char)
  | [] => [acc.reverse]
  | c :: rest =>
    match fuel with
    | 0 => pySplitMaxAux (c :: acc) 0 rest
    | fuel' + 1 =>
      if c = '|' then acc.reverse :: pySplitMaxAux [] fuel' rest
      else pySplitMaxAux (c :: acc) (fuel' + 1) rest

/-- Python `line.split("|", 3)`: at most four fields; pipes beyond the third
stay inside the last field. -/
def splitPipeMax3 (line : String) : List String :=
  (pySplitMaxAux [] 3 line.data).map List.asString

/-- The loop body of `get_commit_history`: skip empty lines, split on `"|"`
with maxsplit 3, keep exactly-four-field lines as a record with the hash
truncated to its first 7 characters (`parts[0][:7]`). -/
def parseHistoryLine (line : String) : Option CommitRecord :=
  if line.data.isEmpty then none
  else
    match splitPipeMax3 line with
    | [h, a, d, s] => some ⟨(h.data.take 7).asString, a, d, s⟩
    | _ => none

/-- Embedding of `get_commit_history(cwd, limit)`. -/
def get_commit_history (env : GitEnv) (limit : Nat) :
    Except PyExc (List CommitRecord) :=
  if is_git_repo env then
    match run_git_command env.gitBin
        ["log", "--pretty=format:%H|%an|%ar|%s", "-n" ++ toString limit]
        env.logHistory true with
    | .ok out => .ok ((pySplitlines out).filterMap parseHistoryLine)
    | .error e => .error e
  else .ok []

/-- The `except RuntimeError: return []` handler of `get_incoming_commits`:
a raised exception is swallowed into `[]` exactly when it is a
`RuntimeError` (or a subclass such as `GitConflictError`). -/
def catchRuntimeError (r : Except PyExc (List CommitRecord)) :
    Except PyExc (List CommitRecord) :=
  match r with
  | .error e => if e.isRuntimeError then .ok [] else .error e
  | .ok v => .ok v

/-- Embedding of `get_incoming_commits(cwd)`.  The body of the `try` block
calls `_parse_log_output(out)` on the log output, but no function of that
name is defined anywhere in the repository: in Python the call raises
`NameError: name '_parse_log_output' is not defined`, which the
`except RuntimeError` clause does not catch. -/
def get_incoming_commits (env : GitEnv) : Except PyExc (List CommitRecord) :=
  if is_git_repo env then
    catchRuntimeError
      (match run_git_command env.gitBin
          ["log", "--pretty=format:%H|%an|%ar|%s", "HEAD..@{u}"]
          env.logUpstream false with
      | .ok _out =>
        .error (.nameError "name _parse_log_output is not defined")
      | .error e => .error e)
  else .ok []

/-- Outcome of running the task callable handed to a background `Worker`:
it either returns a value or raises. -/
inductive TaskOutcome (α : Type) where
  | returns (v : α)
  | raises (e : PyExc)
deriving DecidableEq, Repr

/-- Embedding of `Worker.run` from `ui/main_window.py`: emit `(None, res)`
when the task returns and `(e, None)` when it raises. -/
def workerRun {α : Type} (t : TaskOutcome α) : Option PyExc × Option α :=
  match t with
  | .returns v => (none, some v)
  | .raises e => (some e, none)

/-- JSON values as far as `suggest_commit_messages` inspects them:
`isinstance(parsed, dict)` distinguishes objects; everything else is
returned as parsed. -/
inductive JsonVal where
  /-- a JSON object, with string fields -/
  | obj (fields : List (String × String))
  /-- a JSON array -/
  | arr (items : List JsonVal)
  /-- any other JSON value (string, number, boolean, null) -/
  | prim (render : String)
deriving Repr

/-- Python `str(e)` for the modelled exceptions: the carried message. -/
def PyExc.str : PyExc → String
  | .gitConflict m => m
  | .runtimeError m => m
  | .timeoutExpired => "timeout expired"
  | .nameError m => m
  | .other m => m

/-- Outcome of the `ollama_client.ask(prompt)` request. -/
inductive AskOutcome where
  | completed (text : String)
  | raised (e : PyExc)
deriving DecidableEq, Repr

/-- Embedding of `suggest_commit_messages(diff_content, context, count)` from
`backend/ai_features.py`.  `askOutcome` is the oracle for the AI request and
`jsonLoads` for `json.loads`.  When the AI request itself raises, control
reaches the `except` block with the local `response` never assigned, so
building `[{"error": str(e), "raw_response": response}]` raises
`UnboundLocalError` (a `NameError`) instead of returning the error
structure.  When `json.loads` raises, `response` is bound and the error
structure is returned; a parsed `dict` is wrapped into a one-element list
and every other parse result is returned as is. -/
def suggest_commit_messages (askOutcome : AskOutcome)
    (jsonLoads : String → Except PyExc JsonVal) : Except PyExc JsonVal :=
  match askOutcome with
  | .raised _e =>
    .error (.nameError
      "cannot access local variable response where it is not associated with a value")
  | .completed response =>
    match jsonLoads response with
    | .ok (.obj fields) => .ok (.arr [.obj fields])
    | .ok v => .ok v
    | .error e =>
      .ok (.arr [.obj [("error", e.str), ("raw_response", response)]])

/-- Embedding of `set_git_executable(path)` as a transformer of the module
global `GIT_BIN`: an empty (falsy) `path` leaves it unchanged. -/
def set_git_executable (path gitBin : String) : String :=
  if path.data.isEmpty then gitBin else path

/-- Embedding of `get_git_executable()`. -/
def get_git_executable (gitBin : String) : String := gitBin

/-- Catalog of the public operations of the `git_utils` module, used to state
which calls write the module global `GIT_BIN`. -/
inductive FacadeCall where
  | setGitExecutable (path : String)
  | getGitExecutable
  | runGitCommand
  | isGitRepo
  | currentBranch
  | stagedFiles
  | unstagedFiles
  | conflictedFiles
  | getFileContent
  | stageFile
  | diffStaged
  | stagedDiffSize
  | commitCall
  | safeCommit
  | listBranches
  | getCommitHistory
  | getCommitDiff
  | checkoutBranch
  | createBranch
  | pushCall
  | fetchRemote
  | getIncomingCommits
  | pullCall
  | mergeCall
  | undoLastCommit
  | undoLastCommitHard
  | abortMerge
  | abortRebase
  | resetUnstaged
  | discardUnstagedFileChanges
  | resetStaged
  | resetFile
  | findGitRepos
  | findAllGitRepos
deriving DecidableEq, Repr

/-- The value of the module global `GIT_BIN` after one façade call: in the
source, `set_git_executable` contains the only assignment to `GIT_BIN`
(under `global GIT_BIN`); every other listed function only reads it. -/
def configAfter (c : FacadeCall) (gitBin : String) : String :=
  match c with
  | .setGitExecutable path => set_git_executable path gitBin
  | _ => gitBin

theorem containsSub_of_isPrefixOf {l sub : List Char}
    (h : sub.isPrefixOf l = true) : containsSub l sub = true := by
  cases l with
  | nil =>
    have hs : sub = [] := by
      have := (List.isPrefixOf_iff_prefix).mp h
      simpa using this
    simp [containsSub, hs]
  | cons a as => simp [containsSub, h]

theorem containsSub_append_left (pre : List Char) {l sub : List Char}
    (h : containsSub l sub = true) : containsSub (pre ++ l) sub = true := by
  induction pre with
  | nil => simpa using h
  | cons a as ih => simp [containsSub, ih]

theorem containsSub_prefix_part (l post : List Char) :
    containsSub (l ++ post) l = true :=
  containsSub_of_isPrefixOf
    (List.isPrefixOf_iff_prefix.mpr (List.prefix_append l post))

theorem strContainsSub_right (a b : String) :
    strContainsSub (a ++ b) b = true := by
  have hb : containsSub b.data b.data = true := by
    simpa using containsSub_prefix_part b.data []
  simpa [strContainsSub] using containsSub_append_left a.data hb

theorem strContainsSub_middle (a b c : String) :
    strContainsSub (a ++ b ++ c) b = true := by
  have h : containsSub (b.data ++ c.data) b.data = true :=
    containsSub_prefix_part b.data c.data
  simpa [strContainsSub, List.append_assoc] using
    containsSub_append_left a.data h

/-- C1: for every `run_git_command` invocation with `check=True` whose process
exits non-zero, if the stderr contains both "merge failed" and "fix conflicts"
case-insensitively the call fails with `GitConflictError` carrying the stderr
text (never a generic failure); in every other case it fails with a generic
`RuntimeError` whose message includes the space-joined invocation
(`GIT_BIN` followed by the arguments) and the stderr text. -/
theorem run_git_command_failure_classification (gitBin : String)
    (args : List String) (p : ProcResult) (hrc : p.returncode ≠ 0) :
    (isConflictStderr p.stderr = true →
      run_git_command gitBin args (.completed p) true =
        .error (.gitConflict ("Merge conflict detected:\n" ++ p.stderr)) ∧
      strContainsSub ("Merge conflict detected:\n" ++ p.stderr) p.stderr
        = true) ∧
    (isConflictStderr p.stderr = false →
      ∃ msg, run_git_command gitBin args (.completed p) true =
          .error (.runtimeError msg) ∧
        strContainsSub msg (String.intercalate " " (gitBin :: args)) = true ∧
        strContainsSub msg p.stderr = true) := by
  constructor
  · intro hconf
    refine ⟨?_, strContainsSub_right _ _⟩
    simp [run_git_command, hrc, hconf]
  · intro hnc
    refine ⟨"git command failed: " ++ String.intercalate " " (gitBin :: args)
      ++ "\n" ++ p.stderr, ?_, ?_, ?_⟩
    · simp [run_git_command, hrc, hnc]
    · have h := strContainsSub_middle "git command failed: "
        (String.intercalate " " (gitBin :: args)) ("\n" ++ p.stderr)
      simpa [strContainsSub, List.append_assoc] using h
    · exact strContainsSub_right _ _

/-- Witness for C1 at a concrete conflicting invocation. -/
theorem run_git_command_failure_classification_witness :
    ((1 : Int) ≠ 0) ∧
    ((isConflictStderr "error: Merge Failed!\nhint: Fix conflicts and commit"
        = true →
      run_git_command "git" ["merge", "feature"]
          (.completed ⟨1, "",
            "error: Merge Failed!\nhint: Fix conflicts and commit"⟩) true =
        .error (.gitConflict ("Merge conflict detected:\n" ++
          "error: Merge Failed!\nhint: Fix conflicts and commit")) ∧
      strContainsSub
        ("Merge conflict detected:\n" ++
          "error: Merge Failed!\nhint: Fix conflicts and commit")
        "error: Merge Failed!\nhint: Fix conflicts and commit" = true) ∧
    (isConflictStderr "error: Merge Failed!\nhint: Fix conflicts and commit"
        = false →
      ∃ msg, run_git_command "git" ["merge", "feature"]
          (.completed ⟨1, "",
            "error: Merge Failed!\nhint: Fix conflicts and commit"⟩) true =
          .error (.runtimeError msg) ∧
        strContainsSub msg
          (String.intercalate " " ["git", "merge", "feature"]) = true ∧
        strContainsSub msg
          "error: Merge Failed!\nhint: Fix conflicts and commit" = true)) :=
  ⟨by decide,
    run_git_command_failure_classification "git" ["merge", "feature"]
      ⟨1, "", "error: Merge Failed!\nhint: Fix conflicts and commit"⟩
      (by decide)⟩

deriving instance DecidableEq for Except

/-- A process outcome that completed successfully with empty output. -/
def okOutcome : SubpOutcome := .completed ⟨0, "", ""⟩

/-- A baseline environment in which every git invocation succeeds with empty
output; concrete environments below override individual fields. -/
def baseEnv : GitEnv :=
  { gitBin := "git"
    revParse := .completed ⟨0, "true\n", ""⟩
    revParseBranch := .completed ⟨0, "main\n", ""⟩
    diffCached := okOutcome
    diffNameOnlyCached := okOutcome
    lsFilesModified := okOutcome
    diffFilterU := okOutcome
    branchList := okOutcome
    logHistory := okOutcome
    logUpstream := okOutcome
    commitRun := okOutcome }

/-- C5: the identity probes never raise: `is_git_repo` is `false` and
`current_branch` is `None` whenever the underlying `run_git_command` call
fails for any reason (non-zero exit, timeout, or any other exception), and
the positive result is returned only when the underlying check succeeds. -/
theorem identity_probes_never_raise (env : GitEnv) :
    ((∃ e, run_git_command env.gitBin ["rev-parse", "--is-inside-work-tree"]
        env.revParse true = .error e) → is_git_repo env = false) ∧
    (is_git_repo env = true →
      ∃ out, run_git_command env.gitBin ["rev-parse", "--is-inside-work-tree"]
          env.revParse true = .ok out ∧ pyStrip out = "true") ∧
    ((∃ e, run_git_command env.gitBin ["rev-parse", "--abbrev-ref", "HEAD"]
        env.revParseBranch true = .error e) → current_branch env = none) ∧
    (∀ s, current_branch env = some s →
      ∃ out, run_git_command env.gitBin ["rev-parse", "--abbrev-ref", "HEAD"]
          env.revParseBranch true = .ok out ∧ s = pyStrip out) := by
  refine ⟨?_, ?_, ?_, ?_⟩
  · rintro ⟨e, he⟩
    simp [is_git_repo, he]
  · intro h
    unfold is_git_repo at h
    cases heq : run_git_command env.gitBin
        ["rev-parse", "--is-inside-work-tree"] env.revParse true with
    | ok out =>
      rw [heq] at h
      exact ⟨out, rfl, by simpa using h⟩
    | error e =>
      rw [heq] at h
      simp at h
  · rintro ⟨e, he⟩
    simp [current_branch, he]
  · intro s h
    unfold current_branch at h
    cases heq : run_git_command env.gitBin
        ["rev-parse", "--abbrev-ref", "HEAD"] env.revParseBranch true with
    | ok out =>
      rw [heq] at h
      exact ⟨out, rfl, by simpa using h.symm⟩
    | error e =>
      rw [heq] at h
      simp at h

/-- Environment in which the work-tree probe times out and the branch probe
raises a non-runtime exception. -/
def envProbeFail : GitEnv :=
  { baseEnv with
    revParse := .raised .timeoutExpired
    revParseBranch := .raised (.other "boom") }

/-- Witness for C5: both probes swallow raised exceptions. -/
theorem identity_probes_never_raise_witness :
    is_git_repo envProbeFail = false ∧ current_branch envProbeFail = none :=
  ⟨(identity_probes_never_raise envProbeFail).1 ⟨.timeoutExpired, rfl⟩,
    (identity_probes_never_raise envProbeFail).2.2.1 ⟨.other "boom", rfl⟩⟩

/-- C3: `staged_diff_size` returns exactly the UTF-8 byte length of the
string returned by `diff_staged` (for any content, including multi-byte
characters), and when the directory is not a working tree `diff_staged`
returns the empty string — never an error — and `staged_diff_size` returns
0. -/
theorem staged_diff_size_is_utf8_length (env : GitEnv) :
    (∀ d, diff_staged env = .ok d →
      staged_diff_size env = .ok d.utf8ByteSize) ∧
    (is_git_repo env = false →
      diff_staged env = .ok "" ∧ staged_diff_size env = .ok 0) := by
  cases hrepo : is_git_repo env with
  | false =>
    refine ⟨?_, fun _ => ⟨by simp [diff_staged, hrepo],
      by simp [staged_diff_size, hrepo]⟩⟩
    intro d hd
    have hd0 : "" = d := by
      simpa [diff_staged, hrepo] using hd
    subst hd0
    simp [staged_diff_size, hrepo, String.utf8ByteSize]
  | true =>
    refine ⟨?_, fun h => absurd h (by decide)⟩
    intro d hd
    simp [staged_diff_size, hrepo, hd]

/-- Environment whose staged diff contains a multi-byte character. -/
def envDiffMultibyte : GitEnv :=
  { baseEnv with diffCached := .completed ⟨0, "héllo\n", ""⟩ }

/-- Witness for C3 on a diff with a multi-byte character (7 UTF-8 bytes in 6
characters). -/
theorem staged_diff_size_is_utf8_length_witness :
    staged_diff_size envDiffMultibyte = .ok ("héllo\n".utf8ByteSize) :=
  (staged_diff_size_is_utf8_length envDiffMultibyte).1 "héllo\n" (by decide)

theorem guardMsg_not_runner_failure (size : Nat) :
    pyStartsWith (guardMsg size) "git command failed" = false := by
  have hdata : (guardMsg size).data =
      'S' :: ("taged diff too large (" ++ toString size
        ++ " bytes), refusing to commit").data := by
    have h1 : ("Staged diff too large (" : String) =
        "S" ++ "taged diff too large (" := rfl
    have h2 : ("S" : String).data = ['S'] := rfl
    simp [guardMsg, h1, h2]
  have hg : ("git command failed" : String).data =
      'g' :: ("it command failed" : String).data := rfl
  rw [pyStartsWith, hdata, hg]
  simp [List.isPrefixOf]

/-- C2 (amended): with the staged-diff measurement succeeding with value
`size`, `safe_commit` fails iff `size` strictly exceeds the limit; the
failure is a `RuntimeError` raised by `safe_commit` itself — its message
carries the measured size, does not have the Command Runner failure shape,
and the result is independent of the commit invocation's outcome (no commit
is performed).  Otherwise `safe_commit` delegates to `commit` and returns
its result unchanged.  (The source's guard message does not mention the
configured limit, only the measured size.) -/
theorem safe_commit_guard (message : String) (env : GitEnv) (N size : Nat)
    (hsize : staged_diff_size env = .ok size) :
    (size > N →
      safe_commit message env N = .error (.runtimeError (guardMsg size)) ∧
      (∀ c, safe_commit message { env with commitRun := c } N =
        safe_commit message env N) ∧
      strContainsSub (guardMsg size) (toString size) = true ∧
      pyStartsWith (guardMsg size) "git command failed" = false) ∧
    (size ≤ N → safe_commit message env N = commit message env) := by
  constructor
  · intro hgt
    refine ⟨?_, ?_, ?_, guardMsg_not_runner_failure size⟩
    · simp [safe_commit, hsize, hgt]
    · intro c
      have hframe : staged_diff_size { env with commitRun := c } =
          staged_diff_size env := rfl
      simp [safe_commit, hframe, hsize, hgt]
    · exact strContainsSub_middle "Staged diff too large (" (toString size)
        " bytes), refusing to commit"
  · intro hle
    have hngt : ¬ size > N := not_lt.mpr hle
    simp [safe_commit, hsize, hngt]

/-- Environment with a 5-byte staged diff and a successful commit
invocation. -/
def envSmallDiff : GitEnv :=
  { baseEnv with
    diffCached := .completed ⟨0, "aaaaa", ""⟩
    commitRun := .completed ⟨0, "[main abc123] msg\n", ""⟩ }

/-- Witness for the amended C2 at diff size 5 and limit 3. -/
theorem safe_commit_guard_witness :
    staged_diff_size envSmallDiff = .ok 5 ∧
    ((5 > 3 →
      safe_commit "msg" envSmallDiff 3 =
        .error (.runtimeError (guardMsg 5)) ∧
      (∀ c, safe_commit "msg" { envSmallDiff with commitRun := c } 3 =
        safe_commit "msg" envSmallDiff 3) ∧
      strContainsSub (guardMsg 5) (toString 5) = true ∧
      pyStartsWith (guardMsg 5) "git command failed" = false) ∧
    (5 ≤ 3 → safe_commit "msg" envSmallDiff 3 = commit "msg" envSmallDiff)) :=
  ⟨by decide, safe_commit_guard "msg" envSmallDiff 3 5 (by decide)⟩

/-- Counterexample to C2 as stated: at a 5-byte staged diff and configured
limit 3, `safe_commit` fails with the guard `RuntimeError`, but the failure
text does not contain the configured limit 3 anywhere — the failure carries
only the measured size, refuting the clause that it carries the configured
limit. -/
theorem safe_commit_limit_not_carried :
    safe_commit "msg" envSmallDiff 3 =
      .error (.runtimeError
        "Staged diff too large (5 bytes), refusing to commit") ∧
    strContainsSub "Staged diff too large (5 bytes), refusing to commit" "3"
      = false := ⟨by decide, by decide⟩

/-- Modelled from the spec words of claim C6, for comparison with the source
behaviour: the trimmed, non-empty lines of the output. -/
def specTrimmedNonEmptyLines (out : String) : List String :=
  ((pySplitlines out).map pyStrip).filter (fun l => !l.data.isEmpty)

/-- C6 (amended): inside a working tree, each listing operation returns
exactly the non-blank lines of the command output in input order — kept
verbatim, not trimmed — while `list_branches` strips each line and removes a
leading `"* "` current-branch marker.  The returned sequence is an in-order
subsequence of the output lines containing exactly those lines with a
non-whitespace character. -/
theorem listing_operations_keep_nonblank_lines (env : GitEnv) (out : String)
    (hrepo : is_git_repo env = true) :
    (run_git_command env.gitBin ["diff", "--name-only", "--cached"]
        env.diffNameOnlyCached true = .ok out →
      staged_files env = .ok (nonBlankLines out)) ∧
    (run_git_command env.gitBin ["ls-files", "--modified"]
        env.lsFilesModified true = .ok out →
      unstaged_files env = .ok (nonBlankLines out)) ∧
    (run_git_command env.gitBin ["diff", "--name-only", "--diff-filter=U"]
        env.diffFilterU false = .ok out →
      conflicted_files env = .ok (nonBlankLines out)) ∧
    (run_git_command env.gitBin ["branch", "--list"]
        env.branchList true = .ok out →
      list_branches env = .ok ((pySplitlines out).filterMap branchOfLine)) ∧
    List.Sublist (nonBlankLines out) (pySplitlines out) ∧
    (∀ l, l ∈ nonBlankLines out ↔
      l ∈ pySplitlines out ∧ lineIsNonBlank l = true) ∧
    (∀ line, pyStartsWith (pyStrip line) "* " = true →
      branchOfLine line = some ((pyStrip line).data.drop 2).asString) ∧
    (∀ line, pyStartsWith (pyStrip line) "* " = false →
      (pyStrip line).data.isEmpty = false →
      branchOfLine line = some (pyStrip line)) := by
  refine ⟨fun h => ?_, fun h => ?_, fun h => ?_, fun h => ?_, ?_, ?_, ?_, ?_⟩
  · simp [staged_files, hrepo, h]
  · simp [unstaged_files, hrepo, h]
  · simp [conflicted_files, hrepo, h]
  · simp [list_branches, hrepo, h]
  · exact List.filter_sublist _
  · intro l
    simp [nonBlankLines, List.mem_filter]
  · intro line hmark
    simp [branchOfLine, hmark]
  · intro line hmark hne
    simp [branchOfLine, hmark, hne]

/-- Environment in which every listing command prints a line with
surrounding whitespace, a current-branch marker line and a blank line. -/
def envListing : GitEnv :=
  { baseEnv with
    diffNameOnlyCached := .completed ⟨0, " a.py \n* main\n\n", ""⟩
    lsFilesModified := .completed ⟨0, " a.py \n* main\n\n", ""⟩
    diffFilterU := .completed ⟨0, " a.py \n* main\n\n", ""⟩
    branchList := .completed ⟨0, " a.py \n* main\n\n", ""⟩ }

/-- Witness for the amended C6 on a concrete output. -/
theorem listing_operations_keep_nonblank_lines_witness :
    staged_files envListing = .ok [" a.py ", "* main"] ∧
    unstaged_files envListing = .ok [" a.py ", "* main"] ∧
    conflicted_files envListing = .ok [" a.py ", "* main"] ∧
    list_branches envListing = .ok ["a.py", "main"] := by
  have h := listing_operations_keep_nonblank_lines envListing
    " a.py \n* main\n\n" (by decide)
  exact ⟨(h.1 (by decide)).trans (by decide),
    (h.2.1 (by decide)).trans (by decide),
    (h.2.2.1 (by decide)).trans (by decide),
    (h.2.2.2.1 (by decide)).trans (by decide)⟩

/-- Counterexample to C6 as stated: on the output `" a.py \n* main\n\n"`,
`staged_files` keeps the surviving lines verbatim (`" a.py "` with its
whitespace), not trimmed as the claim states, so the result differs from the
trimmed, non-empty lines of the output. -/
theorem staged_files_lines_not_trimmed :
    staged_files envListing = .ok [" a.py ", "* main"] ∧
    specTrimmedNonEmptyLines " a.py \n* main\n\n" = ["a.py", "* main"] ∧
    staged_files envListing ≠
      .ok (specTrimmedNonEmptyLines " a.py \n* main\n\n") :=
  ⟨by decide, by decide, by decide⟩

/-- C7: inside a working tree, history parsing splits each output line on
`"|"` (three splits, so four fields, the subject keeping any further pipes
verbatim) and yields one `CommitRecord` per four-field line with the hash
truncated to its first 7 characters and the author, relative date and
subject taken verbatim; every line that does not yield four fields is
silently dropped, so the history is at most as long as the output. -/
theorem get_commit_history_parses (env : GitEnv) (limit : Nat) (out : String)
    (hrepo : is_git_repo env = true)
    (hout : run_git_command env.gitBin
      ["log", "--pretty=format:%H|%an|%ar|%s", "-n" ++ toString limit]
      env.logHistory true = .ok out) :
    get_commit_history env limit =
      .ok ((pySplitlines out).filterMap parseHistoryLine) ∧
    ((pySplitlines out).filterMap parseHistoryLine).length ≤
      (pySplitlines out).length ∧
    (∀ line h a d s, splitPipeMax3 line = [h, a, d, s] →
      parseHistoryLine line =
        some ⟨(h.data.take 7).asString, a, d, s⟩) ∧
    (∀ line, (splitPipeMax3 line).length ≠ 4 →
      parseHistoryLine line = none) := by
  refine ⟨?_, List.length_filterMap_le _ _, ?_, ?_⟩
  · simp [get_commit_history, hrepo, hout]
  · intro line h a d s hsp
    have hne : line.data.isEmpty = false := by
      cases hdata : line.data.isEmpty
      · rfl
      · exfalso
        have hnil : line.data = [] := by simpa using hdata
        rw [splitPipeMax3, hnil] at hsp
        simp [pySplitMaxAux] at hsp
    simp [parseHistoryLine, hne, hsp]
  · intro line hlen
    unfold parseHistoryLine
    split
    · rfl
    · split
      · rename_i h a d s hsp
        rw [hsp] at hlen
        simp at hlen
      · rfl

/-- Environment whose log output has one well-formed line (with an extra
pipe in the subject) and one malformed line. -/
def envHistory : GitEnv :=
  { baseEnv with
    logHistory :=
      .completed ⟨0, "abcdefghij|Alice|3 days ago|fix|bug\nbadline", ""⟩ }

/-- Witness for C7: the four-field line becomes a record with a 7-character
hash and a verbatim subject `"fix|bug"`; the malformed line is dropped. -/
theorem get_commit_history_parses_witness :
    get_commit_history envHistory 100 =
      .ok [⟨"abcdefg", "Alice", "3 days ago", "fix|bug"⟩] := by
  have h := get_commit_history_parses envHistory 100
    "abcdefghij|Alice|3 days ago|fix|bug\nbadline" (by decide) (by decide)
  exact h.1.trans (by decide)

/-- Environment that is a working tree whose upstream-log command completes
with a non-zero exit (no upstream configured) and empty stdout. -/
def envNoUpstream : GitEnv :=
  { baseEnv with
    logUpstream := .completed
      ⟨128, "", "fatal: no upstream configured for branch main"⟩ }

/-- C4 (code bug): in a working tree the incoming-commit probe raises
instead of returning a list: the `try` body calls `_parse_log_output`,
which is defined nowhere in the repository, so Python raises a `NameError`
that the `except RuntimeError` handler does not catch — here shown at the
very case the claim singles out, a completed log command with no upstream
configured (`check=False` makes `run_git_command` return its stdout). -/
theorem get_incoming_commits_raises_nameError :
    is_git_repo envNoUpstream = true ∧
    run_git_command envNoUpstream.gitBin
      ["log", "--pretty=format:%H|%an|%ar|%s", "HEAD..@{u}"]
      envNoUpstream.logUpstream false = .ok "" ∧
    get_incoming_commits envNoUpstream =
      .error (.nameError "name _parse_log_output is not defined") :=
  ⟨by decide, by decide, by decide⟩

/-- C8: the background worker's completion pair carries either an error or a
value, never both: a raising task emits `(e, None)`, a returning task emits
`(None, value)`, and in every emitted pair at least one component is
`None`. -/
theorem workerRun_error_xor_value {α : Type} (t : TaskOutcome α) :
    (∀ e, t = .raises e → workerRun t = (some e, none)) ∧
    (∀ v, t = .returns v → workerRun t = (none, some v)) ∧
    ((workerRun t).1 = none ∨ (workerRun t).2 = none) := by
  refine ⟨?_, ?_, ?_⟩
  · intro e he
    subst he
    rfl
  · intro v hv
    subst hv
    rfl
  · cases t with
    | returns v => left; rfl
    | raises e => right; rfl

/-- Witness for C8 on a concrete raising task. -/
theorem workerRun_error_xor_value_witness :
    workerRun (TaskOutcome.raises (PyExc.runtimeError "boom") : TaskOutcome Nat)
      = (some (PyExc.runtimeError "boom"), none) :=
  (workerRun_error_xor_value
    (TaskOutcome.raises (PyExc.runtimeError "boom") : TaskOutcome Nat)).1
    (PyExc.runtimeError "boom") rfl

/-- A `json.loads` oracle that always fails to parse. -/
def jsonLoadsFail : String → Except PyExc JsonVal :=
  fun _ => .error (.other "Expecting value: line 1 column 1 (char 0)")

/-- A `json.loads` oracle returning a JSON array. -/
def jsonLoadsArr : String → Except PyExc JsonVal :=
  fun _ => .ok (.arr [.prim "x"])

/-- A `json.loads` oracle returning a JSON object. -/
def jsonLoadsObj : String → Except PyExc JsonVal :=
  fun _ => .ok (.obj [("scope", "s"), ("subject", "t"), ("body", "b")])

/-- C9 (code bug): when the AI request itself raises,
`suggest_commit_messages` raises `UnboundLocalError` — the `except` handler
builds `[{"error": str(e), "raw_response": response}]` but `response` was
never assigned — instead of returning the single-element error array the
claim (and the handler's own comment) promise.  The remaining conjuncts show
the paths that do work: a parse failure after a completed request returns
the error array with the raw text, a parsed object is wrapped into a
one-element list, and a parsed array is returned unchanged. -/
theorem suggest_commit_messages_ask_failure_raises :
    suggest_commit_messages
        (.raised (.runtimeError "HTTPConnectionPool: connection refused"))
        jsonLoadsFail =
      .error (.nameError
        "cannot access local variable response where it is not associated with a value") ∧
    suggest_commit_messages (.completed "not json") jsonLoadsFail =
      .ok (.arr [.obj
        [("error", "Expecting value: line 1 column 1 (char 0)"),
          ("raw_response", "not json")]]) ∧
    suggest_commit_messages (.completed "{}") jsonLoadsObj =
      .ok (.arr [.obj [("scope", "s"), ("subject", "t"), ("body", "b")]]) ∧
    suggest_commit_messages (.completed "[]") jsonLoadsArr =
      .ok (.arr [.prim "x"]) :=
  ⟨rfl, rfl, rfl, rfl⟩

/-- C10: `set_git_executable` with an empty (falsy) path leaves the
configured executable unchanged, with a non-empty path makes
`get_git_executable` return exactly that path, and — per the write sites of
the module global `GIT_BIN` — it is the only façade operation that modifies
the configuration. -/
theorem set_git_executable_only_writer (g p : String) (c : FacadeCall) :
    (p = "" → get_git_executable (set_git_executable p g) = g) ∧
    (p ≠ "" → get_git_executable (set_git_executable p g) = p) ∧
    configAfter (.setGitExecutable p) g = set_git_executable p g ∧
    ((∀ q, c ≠ .setGitExecutable q) → configAfter c g = g) := by
  refine ⟨?_, ?_, rfl, ?_⟩
  · intro hp
    subst hp
    rfl
  · intro hp
    have hne : p.data.isEmpty = false := by
      cases hdata : p.data.isEmpty
      · rfl
      · exfalso
        have hnil : p.data = [] := by simpa using hdata
        exact hp (by cases p; simpa using congrArg String.mk hnil)
    simp [get_git_executable, set_git_executable, hne]
  · intro hnot
    cases c with
    | setGitExecutable q => exact absurd rfl (hnot q)
    | _ => rfl

/-- Witness for C10 at a non-empty path and a non-writing façade call. -/
theorem set_git_executable_only_writer_witness :
    get_git_executable (set_git_executable "custom-git" "git") = "custom-git"
      ∧ configAfter .stagedFiles "git" = "git" :=
  ⟨(set_git_executable_only_writer "git" "custom-git" .stagedFiles).2.1
      (by decide),
    (set_git_executable_only_writer "git" "custom-git" .stagedFiles).2.2.2
      (fun q h => FacadeCall.noConfusion h)⟩

end GitAssistant
